import Mathlib

/-!
Verification development for the schema/attribute layer of
PyOpenWorm/channelworm.py: the PatchClampExperiment keyword-argument
partitioning, the ChannelModel controlled-vocabulary normalization of
modelType, and the two ChannelModel specializations.

The file shallowly embeds the Python source.  Code of the repository that
is not in the excerpt (the Experiment and DataObject base constructors,
yarom.utils.slice_dict, and the DatatypeProperty/ObjectProperty
declaration machinery) is modelled from the specification and marked as
such in the doc comments.
-/

set_option autoImplicit false

namespace ChannelWorm

/-- A Python value, as far as channelworm.py inspects one: the code only
branches on whether a value is a string (isinstance check in
ChannelModel init); every other value is opaque data. -/
inductive PyVal where
  | str (s : String)
  | bool (b : Bool)
  | int (n : Int)
  deriving DecidableEq, Repr

/-- Errors surfaced during construction.  unrecognizedArgument is the
base-constructor rejection from the spec; typeErrorDuplicateKeyword is
the Python TypeError for a keyword argument given twice; schemaConflict
is the declare-primitive conflict from the spec. -/
inductive InitError where
  | unrecognizedArgument (name : String)
  | typeErrorDuplicateKeyword (name : String)
  | schemaConflict (name : String)
  deriving DecidableEq, Repr

/-- channelworm.py line 97: canonical sentinel for patch-clamp models. -/
def ChannelModelType.patchClamp : String := "Patch clamp experiment"

/-- channelworm.py line 98: canonical sentinel for homology models. -/
def ChannelModelType.homologyEstimate : String := "Estimation based on homology"

/-- Python str.lower as used on channelworm.py line 147: the
character-wise lowercase map over the string (all strings compared by the
code are basic latin).  Defined through the underlying character list so
that it computes; pyLower_eq_toLower below certifies it agrees with the
standard library String.toLower. -/
def pyLower (s : String) : String := ⟨s.data.map Char.toLower⟩

/-- One declared datatype attribute on an instance: its cardinality flag
(multiple) and the ordered list of values written so far. -/
structure Attribute where
  multiple : Bool
  values : List PyVal
  deriving DecidableEq, Repr

/-- Entity classes that appear as relationship targets in channelworm.py. -/
inductive EntityClass where
  | patchClampExperiment
  | channel
  deriving DecidableEq, Repr

/-- A constructed ChannelModel-family instance: the datatype attributes in
declaration order, the relationship attributes in declaration order, and
the keyword arguments forwarded to the base DataObject constructor. -/
structure CMInstance where
  attrs : List (String × Attribute)
  rels : List (String × EntityClass)
  baseKwargs : List (String × PyVal)
  deriving DecidableEq, Repr

/-- Modelled from the spec: the DatatypeProperty declaration primitive of
the missing dataObject base (spec 4.1 declare) binds a fresh attribute
slot with no values on the instance. -/
def declareDT (inst : CMInstance) (name : String) (multiple : Bool) : CMInstance :=
  { inst with attrs := inst.attrs ++ [(name, { multiple := multiple, values := [] })] }

/-- Modelled from the spec: the attribute accessor of the missing base
(spec 4.1), called with a value, "sets/adds it": a multiple-valued
attribute accumulates the value at the end of its ordered sequence, a
single-valued attribute is overwritten. -/
def setOneVal (a : Attribute) (v : PyVal) : Attribute :=
  if a.multiple then { a with values := a.values ++ [v] }
  else { a with values := [v] }

/-- Modelled from the spec: setting attribute name on an instance updates
the matching declared slot via the accessor; names not declared are
untouched. -/
def setAttr (inst : CMInstance) (name : String) (v : PyVal) : CMInstance :=
  { inst with
    attrs := inst.attrs.map (fun p => if p.1 = name then (p.1, setOneVal p.2 v) else p) }

/-- Modelled from the spec: the accessor called with no arguments returns
the current values of the named attribute (empty if never populated). -/
def getAttr (inst : CMInstance) (name : String) : List PyVal :=
  match inst.attrs.find? (fun p => p.1 == name) with
  | some p => p.2.values
  | none => []

/-- The datatype attribute names declared on an instance, in order. -/
def CMInstance.attrNames (inst : CMInstance) : List String :=
  inst.attrs.map (fun p => p.1)

/-- channelworm.py lines 138-151, ChannelModel init: forwards the
remaining kwargs to the DataObject base, declares modelType, ion
(multiple), gating (multiple) and conductance, then, when the modelType
argument is a string, lower-cases it and compares it against the tuple
("homology", ChannelModelType.homologyEstimate) and then the tuple
("patch-clamp", ChannelModelType.patchClamp), storing the corresponding
canonical sentinel on a match and storing nothing otherwise. -/
def channelModelInit (modelType : PyVal) (kwargs : List (String × PyVal)) : CMInstance :=
  let inst : CMInstance := { attrs := [], rels := [], baseKwargs := kwargs }
  let inst := declareDT inst "modelType" false
  let inst := declareDT inst "ion" true
  let inst := declareDT inst "gating" true
  let inst := declareDT inst "conductance" false
  match modelType with
  | PyVal.str s =>
      let m := pyLower s
      if m = "homology" ∨ m = ChannelModelType.homologyEstimate then
        setAttr inst "modelType" (PyVal.str ChannelModelType.homologyEstimate)
      else if m = "patch-clamp" ∨ m = ChannelModelType.patchClamp then
        setAttr inst "modelType" (PyVal.str ChannelModelType.patchClamp)
      else inst
  | _ => inst

/-- channelworm.py lines 154-158, PatchClampChannelModel init: calls the
ChannelModel init with modelType fixed to "patch-clamp" together with the
callers kwargs (Python raises TypeError when the caller also supplies
modelType, since the keyword would be given twice), then declares the
modeled_from relationship targeting PatchClampExperiment. -/
def patchClampChannelModelInit (kwargs : List (String × PyVal)) :
    Except InitError CMInstance :=
  if kwargs.any (fun kv => kv.1 == "modelType") then
    Except.error (InitError.typeErrorDuplicateKeyword "modelType")
  else
    let base := channelModelInit (PyVal.str "patch-clamp") kwargs
    Except.ok { base with rels := base.rels ++ [("modeled_from", EntityClass.patchClampExperiment)] }

/-- channelworm.py lines 161-166, HomologyChannelModel init: calls the
ChannelModel init with modelType fixed to "homology" (TypeError when the
caller also supplies modelType), then declares the homolog relationship
targeting Channel. -/
def homologyChannelModelInit (kwargs : List (String × PyVal)) :
    Except InitError CMInstance :=
  if kwargs.any (fun kv => kv.1 == "modelType") then
    Except.error (InitError.typeErrorDuplicateKeyword "modelType")
  else
    let base := channelModelInit (PyVal.str "homology") kwargs
    Except.ok { base with rels := base.rels ++ [("homolog", EntityClass.channel)] }

/-- channelworm.py lines 58-80: the fixed list of recognized condition
names of PatchClampExperiment. -/
def PatchClampExperiment.conditions : List String :=
  [ "Ca_concentration",
    "Cl_concentration",
    "blockers",
    "cell",
    "cell_age",
    "delta_t",
    "duration",
    "end_time",
    "extra_solution",
    "initial_voltage",
    "ion_channel",
    "membrane_capacitance",
    "mutants",
    "patch_type",
    "pipette_solution",
    "protocol_end",
    "protocol_start",
    "protocol_step",
    "start_time",
    "temperature",
    "type" ]

/-- Modelled from the spec: yarom.utils.slice_dict is not in the excerpt;
per the spec it selects from kwargs the sub-dictionary of entries whose
key is in the given name list (the "conditions" part of the split). -/
def slice_dict (kwargs : List (String × PyVal)) (keys : List String) :
    List (String × PyVal) :=
  kwargs.filter (fun kv => keys.contains kv.1)

/-- A constructed PatchClampExperiment instance: the reference flag and
remaining kwargs handed to the base Experiment constructor, the condition
attributes declared by the init loop, and the condition values set from
the supplied kwargs. -/
structure PCEInstance where
  reference : PyVal
  baseKwargs : List (String × PyVal)
  declared : List String
  populated : List (String × PyVal)
  deriving DecidableEq, Repr

/-- The remainder dictionary computed on channelworm.py line 84: the
entries of kwargs whose key is not a key of the sliced conditions
dictionary. -/
def pceRest (kwargs : List (String × PyVal)) : List (String × PyVal) :=
  kwargs.filter
    (fun kv => !((slice_dict kwargs PatchClampExperiment.conditions).any
      (fun c => c.1 == kv.1)))

/-- channelworm.py lines 82-93, PatchClampExperiment init: slices the
condition entries out of kwargs, forwards the rest together with the
reference flag to the base Experiment constructor, declares a
DatatypeProperty for every name of the fixed conditions list, then sets
each supplied condition value.  The base Experiment constructor is
modelled from the spec: it is not in the excerpt; per the spec it accepts
the reference flag plus a set of recognized keyword names (the
baseAccepts parameter) and raises UnrecognizedArgument on the first
remaining kwarg it does not accept, the error propagating out of the
constructor. -/
def patchClampExperimentInit (baseAccepts : List String) (reference : PyVal)
    (kwargs : List (String × PyVal)) : Except InitError PCEInstance :=
  let conds := slice_dict kwargs PatchClampExperiment.conditions
  let rest := pceRest kwargs
  match rest.find? (fun kv => !(baseAccepts.contains kv.1)) with
  | some kv => Except.error (InitError.unrecognizedArgument kv.1)
  | none =>
      Except.ok
        { reference := reference,
          baseKwargs := rest,
          declared := PatchClampExperiment.conditions,
          populated := conds }

/-- channelworm.py lines 101-151: executing the class body of
ChannelModel binds only class_context and the init function; no
DatatypeProperty or ObjectProperty call runs at class-definition time, so
the list of attribute declarations executed then is empty. -/
def channelModelClassBodyDecls : List String := []

/-- channelworm.py lines 7-93: executing the class body of
PatchClampExperiment binds only class_context, the conditions list and
the init function; no attribute declaration executes at class-definition
time. -/
def patchClampExperimentClassBodyDecls : List String := []

/-- Modelled from the spec: the declare primitive of the missing
dataObject base (spec 4.1) adds the name to the owning class schema
registry and raises SchemaConflict when the name is already present. -/
def declareInRegistry (registry : List String) (name : String) :
    Except InitError (List String) :=
  if registry.contains name then Except.error (InitError.schemaConflict name)
  else Except.ok (registry ++ [name])

/-- The four DatatypeProperty declarations executed by the ChannelModel
init (channelworm.py lines 140-143), threaded through the per-class
schema registry of the spec-modelled declare primitive.  These run each
time an instance is constructed, since the source places them inside the
init function. -/
def channelModelInitRegistry (registry : List String) :
    Except InitError (List String) := do
  let r1 ← declareInRegistry registry "modelType"
  let r2 ← declareInRegistry r1 "ion"
  let r3 ← declareInRegistry r2 "gating"
  declareInRegistry r3 "conductance"

/-! ## Supporting lemmas -/

/-- Packing a valid codepoint and unpacking it returns the codepoint. -/
theorem toNat_ofNatAux (n : Nat) (h : n.isValidChar) :
    (Char.ofNatAux n h).toNat = n := by
  simp [Char.ofNatAux, Char.toNat, UInt32.toNat, BitVec.toNat_ofNatLt]

/-- Char.toLower never produces a basic latin uppercase letter: an
uppercase input moves into the lowercase range and any other input is
returned unchanged, hence is not uppercase. -/
theorem char_toLower_ne_upper (c d : Char) (h65 : 65 ≤ d.toNat)
    (h90 : d.toNat ≤ 90) : Char.toLower c ≠ d := by
  unfold Char.toLower
  by_cases hc : c.toNat ≥ 65 ∧ c.toNat ≤ 90
  · rw [if_pos hc]
    intro h
    have hv : (c.toNat + 32).isValidChar := by
      left
      omega
    have h2 : (Char.ofNat (c.toNat + 32)).toNat = c.toNat + 32 := by
      rw [Char.ofNat, dif_pos hv, toNat_ofNatAux]
    rw [h] at h2
    omega
  · rw [if_neg hc]
    intro h
    subst h
    exact hc ⟨h65, h90⟩

/-- pyLower agrees with the standard library String.toLower. -/
theorem pyLower_eq_toLower (s : String) : pyLower s = s.toLower := by
  rw [String.toLower, String.map_eq, pyLower]

/-- The lowercased form of a string never starts with an uppercase basic
latin letter. -/
theorem pyLower_ne_upper_head (s : String) (d : Char) (rest : List Char)
    (h65 : 65 ≤ d.toNat) (h90 : d.toNat ≤ 90) :
    pyLower s ≠ String.mk (d :: rest) := by
  intro h
  have hd : s.data.map Char.toLower = d :: rest := congrArg String.data h
  cases hs : s.data with
  | nil => rw [hs] at hd; simp at hd
  | cons c cs =>
      rw [hs] at hd
      simp only [List.map_cons, List.cons.injEq] at hd
      exact char_toLower_ne_upper c d h65 h90 hd.1

/-- The comparison on channelworm.py line 148 against the homology
sentinel is dead code: a lowercased string never equals a sentinel that
contains an uppercase letter. -/
theorem pyLower_ne_homologyEstimate (s : String) :
    pyLower s ≠ ChannelModelType.homologyEstimate := by
  have he : ChannelModelType.homologyEstimate =
      String.mk ('E' :: "stimation based on homology".data) := by rfl
  rw [he]
  exact pyLower_ne_upper_head s 'E' _ (by decide) (by decide)

/-- The comparison on channelworm.py line 150 against the patch-clamp
sentinel is dead code for the same reason. -/
theorem pyLower_ne_patchClamp (s : String) :
    pyLower s ≠ ChannelModelType.patchClamp := by
  have he : ChannelModelType.patchClamp =
      String.mk ('P' :: "atch clamp experiment".data) := by rfl
  rw [he]
  exact pyLower_ne_upper_head s 'P' _ (by decide) (by decide)

/-- Membership in the sliced conditions dictionary: an entry of kwargs
whose key is in the key list. -/
theorem mem_slice_dict (kwargs : List (String × PyVal)) (keys : List String)
    (kv : String × PyVal) :
    kv ∈ slice_dict kwargs keys ↔ kv ∈ kwargs ∧ kv.1 ∈ keys := by
  simp [slice_dict, List.mem_filter]

/-- Membership in the remainder dictionary of the PatchClampExperiment
init: an entry of kwargs whose key is not a recognized condition name. -/
theorem mem_pceRest (kwargs : List (String × PyVal)) (kv : String × PyVal) :
    kv ∈ pceRest kwargs ↔
      kv ∈ kwargs ∧ kv.1 ∉ PatchClampExperiment.conditions := by
  unfold pceRest
  simp only [List.mem_filter, Bool.not_eq_true']
  constructor
  · rintro ⟨h1, h2⟩
    refine ⟨h1, fun hmem => ?_⟩
    have : (slice_dict kwargs PatchClampExperiment.conditions).any
        (fun c => c.1 == kv.1) = true := by
      rw [List.any_eq_true]
      exact ⟨kv, (mem_slice_dict kwargs _ kv).2 ⟨h1, hmem⟩, by simp⟩
    rw [this] at h2
    cases h2
  · rintro ⟨h1, h2⟩
    refine ⟨h1, ?_⟩
    rw [Bool.eq_false_iff]
    intro hany
    rw [List.any_eq_true] at hany
    obtain ⟨c, hc, hceq⟩ := hany
    have := (mem_slice_dict kwargs _ c).1 hc
    rw [beq_iff_eq] at hceq
    exact h2 (hceq ▸ this.2)

/-- Inversion for a successful PatchClampExperiment construction: the
base constructor accepted every forwarded kwarg and the instance is
exactly the record built from the partition. -/
theorem pce_init_ok_iff (baseAccepts : List String) (reference : PyVal)
    (kwargs : List (String × PyVal)) (inst : PCEInstance) :
    patchClampExperimentInit baseAccepts reference kwargs = Except.ok inst ↔
      ((pceRest kwargs).find? (fun kv => !(baseAccepts.contains kv.1)) = Option.none ∧
       inst = { reference := reference, baseKwargs := pceRest kwargs,
                declared := PatchClampExperiment.conditions,
                populated := slice_dict kwargs PatchClampExperiment.conditions }) := by
  unfold patchClampExperimentInit
  dsimp only
  cases h : (pceRest kwargs).find? (fun kv => !(baseAccepts.contains kv.1)) with
  | none => simp [eq_comm]
  | some kv => simp

/-- The remainder computed against the sliced dictionary (line 84) equals
the direct filter of kwargs by non-membership of the key in the fixed
conditions list. -/
theorem pceRest_eq_filter (kwargs : List (String × PyVal)) :
    pceRest kwargs
      = kwargs.filter (fun kv => !(PatchClampExperiment.conditions.contains kv.1)) := by
  unfold pceRest
  apply List.filter_congr
  intro kv hkv
  by_cases h : kv.1 ∈ PatchClampExperiment.conditions
  · have h1 : (slice_dict kwargs PatchClampExperiment.conditions).any
        (fun c => c.1 == kv.1) = true := by
      rw [List.any_eq_true]
      exact ⟨kv, (mem_slice_dict kwargs _ kv).2 ⟨hkv, h⟩, by simp⟩
    have h2 : PatchClampExperiment.conditions.contains kv.1 = true := by
      simpa using h
    rw [h1, h2]
  · have h1 : (slice_dict kwargs PatchClampExperiment.conditions).any
        (fun c => c.1 == kv.1) = false := by
      rw [Bool.eq_false_iff]
      intro hany
      rw [List.any_eq_true] at hany
      obtain ⟨c, hc, hceq⟩ := hany
      have := (mem_slice_dict kwargs _ c).1 hc
      rw [beq_iff_eq] at hceq
      exact h (hceq ▸ this.2)
    have h2 : PatchClampExperiment.conditions.contains kv.1 = false := by
      simpa using h
    rw [h1, h2]

/-- Setting an attribute leaves the set of declared attribute names
unchanged. -/
theorem attrNames_setAttr (inst : CMInstance) (n : String) (v : PyVal) :
    (setAttr inst n v).attrNames = inst.attrNames := by
  unfold setAttr CMInstance.attrNames
  dsimp only
  rw [List.map_map]
  apply List.map_congr_left
  intro p hp
  by_cases h : p.1 = n
  · simp [h]
  · simp [h]

/-- Every ChannelModel construction declares exactly the four datatype
attributes of lines 140-143, in order, whatever the arguments. -/
theorem cm_attrNames (mt : PyVal) (kwargs : List (String × PyVal)) :
    (channelModelInit mt kwargs).attrNames
      = ["modelType", "ion", "gating", "conductance"] := by
  cases mt with
  | str s =>
      unfold channelModelInit
      dsimp only
      split_ifs <;> first | (rw [attrNames_setAttr]; rfl) | rfl
  | bool b => rfl
  | int n => rfl

/-- The ChannelModel init itself declares no relationship attribute. -/
theorem cm_rels (mt : PyVal) (kwargs : List (String × PyVal)) :
    (channelModelInit mt kwargs).rels = [] := by
  cases mt with
  | str s =>
      unfold channelModelInit
      dsimp only
      split_ifs <;> rfl
  | bool b => rfl
  | int n => rfl

/-- Characterization of the value stored into modelType by the
normalization of lines 146-151: the homology sentinel exactly when the
lowercased input is "homology", the patch-clamp sentinel exactly when it
is "patch-clamp", and nothing otherwise (the tuple comparisons against
the mixed-case sentinels being dead code after lower-casing). -/
theorem getAttr_modelType_value (s : String) (kwargs : List (String × PyVal)) :
    getAttr (channelModelInit (PyVal.str s) kwargs) "modelType" =
      if pyLower s = "homology" then [PyVal.str ChannelModelType.homologyEstimate]
      else if pyLower s = "patch-clamp" then [PyVal.str ChannelModelType.patchClamp]
      else [] := by
  unfold channelModelInit
  simp only [pyLower_ne_homologyEstimate s, or_false, pyLower_ne_patchClamp s]
  split_ifs <;> rfl

/-- Inversion for a successful PatchClampChannelModel construction: the
caller did not supply modelType, and the instance is the ChannelModel
instance built with the fixed "patch-clamp" discriminant plus the single
modeled_from relationship. -/
theorem pccm_init_ok_iff (kwargs : List (String × PyVal)) (inst : CMInstance) :
    patchClampChannelModelInit kwargs = Except.ok inst ↔
      (kwargs.any (fun kv => kv.1 == "modelType") = false ∧
       inst = { channelModelInit (PyVal.str "patch-clamp") kwargs with
                rels := [("modeled_from", EntityClass.patchClampExperiment)] }) := by
  unfold patchClampChannelModelInit
  dsimp only
  by_cases hc : kwargs.any (fun kv => kv.1 == "modelType") = true
  · rw [if_pos hc]
    simp [hc]
  · rw [if_neg hc]
    rw [Bool.not_eq_true] at hc
    simp [hc, cm_rels, eq_comm]

/-- Inversion for a successful HomologyChannelModel construction. -/
theorem hcm_init_ok_iff (kwargs : List (String × PyVal)) (inst : CMInstance) :
    homologyChannelModelInit kwargs = Except.ok inst ↔
      (kwargs.any (fun kv => kv.1 == "modelType") = false ∧
       inst = { channelModelInit (PyVal.str "homology") kwargs with
                rels := [("homolog", EntityClass.channel)] }) := by
  unfold homologyChannelModelInit
  dsimp only
  by_cases hc : kwargs.any (fun kv => kv.1 == "modelType") = true
  · rw [if_pos hc]
    simp [hc]
  · rw [if_neg hc]
    rw [Bool.not_eq_true] at hc
    simp [hc, cm_rels, eq_comm]

/-! ## Claim theorems -/

/-- C1: the PatchClampExperiment constructor partitions incoming kwargs
by membership in the fixed condition-name list: on a successful
construction every kwarg named in the list is set on the correspondingly
named attribute, the kwargs not named in the list are forwarded unchanged
to the base Experiment constructor and were all accepted by it; and when
some forwarded kwarg is not accepted by the base constructor, the
construction surfaces UnrecognizedArgument for an unaccepted name
(propagated, not swallowed). -/
theorem pce_kwarg_partitioning (baseAccepts : List String) (reference : PyVal)
    (kwargs : List (String × PyVal)) :
    (∀ inst, patchClampExperimentInit baseAccepts reference kwargs = Except.ok inst →
       (∀ kv : String × PyVal, kv ∈ kwargs → kv.1 ∈ PatchClampExperiment.conditions →
          kv ∈ inst.populated) ∧
       inst.baseKwargs
         = kwargs.filter (fun kv => !(PatchClampExperiment.conditions.contains kv.1)) ∧
       (∀ kv : String × PyVal, kv ∈ inst.baseKwargs → baseAccepts.contains kv.1 = true)) ∧
    (∀ kv : String × PyVal, kv ∈ kwargs →
       kv.1 ∉ PatchClampExperiment.conditions → kv.1 ∉ baseAccepts →
       ∃ name, patchClampExperimentInit baseAccepts reference kwargs
           = Except.error (InitError.unrecognizedArgument name) ∧ name ∉ baseAccepts) := by
  constructor
  · intro inst h
    rw [pce_init_ok_iff] at h
    obtain ⟨hfind, rfl⟩ := h
    refine ⟨?_, ?_, ?_⟩
    · intro kv h1 h2
      exact (mem_slice_dict kwargs _ kv).2 ⟨h1, h2⟩
    · exact pceRest_eq_filter kwargs
    · intro kv hkv
      rw [List.find?_eq_none] at hfind
      have := hfind kv hkv
      simpa using this
  · intro kv h1 h2 h3
    have hmem : kv ∈ pceRest kwargs := (mem_pceRest kwargs kv).2 ⟨h1, h2⟩
    cases hfind : (pceRest kwargs).find? (fun kv => !(baseAccepts.contains kv.1)) with
    | none =>
        rw [List.find?_eq_none] at hfind
        have := hfind kv hmem
        simp at this
        exact absurd this h3
    | some w =>
        have hw := List.find?_some hfind
        simp at hw
        refine ⟨w.1, ?_, hw⟩
        unfold patchClampExperimentInit
        dsimp only
        rw [hfind]

/-- C1 witness: with the spec example kwargs (temperature, cell, foo), a
base that accepts foo yields an instance whose populated conditions
contain temperature, and a base that accepts nothing rejects the
construction with UnrecognizedArgument. -/
theorem pce_kwarg_partitioning_witness :
    (("temperature", PyVal.int 20) ∈
      ({ reference := PyVal.bool false,
         baseKwargs := [("foo", PyVal.int 1)],
         declared := PatchClampExperiment.conditions,
         populated := [("temperature", PyVal.int 20), ("cell", PyVal.str "ADAL")] }
        : PCEInstance).populated) ∧
    (∃ name, patchClampExperimentInit [] (PyVal.bool false)
        [("temperature", PyVal.int 20), ("cell", PyVal.str "ADAL"), ("foo", PyVal.int 1)]
        = Except.error (InitError.unrecognizedArgument name) ∧ name ∉ ([] : List String)) :=
  ⟨((pce_kwarg_partitioning ["foo"] (PyVal.bool false)
      [("temperature", PyVal.int 20), ("cell", PyVal.str "ADAL"), ("foo", PyVal.int 1)]).1
      _ (by rfl)).1 ("temperature", PyVal.int 20) (by decide) (by decide),
   (pce_kwarg_partitioning [] (PyVal.bool false)
      [("temperature", PyVal.int 20), ("cell", PyVal.str "ADAL"), ("foo", PyVal.int 1)]).2
      ("foo", PyVal.int 1) (by decide) (by decide) (by decide)⟩

/-- C2: for every successful PatchClampExperiment construction, whatever
the supplied kwargs, the declared condition attributes are exactly the
fixed 21-name conditions list, and only the supplied subset is populated
(every populated entry comes from kwargs and its name is in the list). -/
theorem pce_declared_conditions_fixed (baseAccepts : List String)
    (reference : PyVal) (kwargs : List (String × PyVal)) (inst : PCEInstance)
    (h : patchClampExperimentInit baseAccepts reference kwargs = Except.ok inst) :
    inst.declared = PatchClampExperiment.conditions ∧
    inst.declared.length = 21 ∧
    (∀ kv : String × PyVal, kv ∈ inst.populated →
       kv ∈ kwargs ∧ kv.1 ∈ PatchClampExperiment.conditions) := by
  rw [pce_init_ok_iff] at h
  obtain ⟨-, rfl⟩ := h
  exact ⟨rfl, by rfl, fun kv hkv => (mem_slice_dict kwargs _ kv).1 hkv⟩

/-- C2 witness: a concrete construction with a single supplied condition
declares the full 21-name list. -/
theorem pce_declared_conditions_fixed_witness :
    ({ reference := PyVal.bool false, baseKwargs := [],
       declared := PatchClampExperiment.conditions,
       populated := [("cell", PyVal.str "ADAL")] } : PCEInstance).declared
        = PatchClampExperiment.conditions ∧
    ({ reference := PyVal.bool false, baseKwargs := [],
       declared := PatchClampExperiment.conditions,
       populated := [("cell", PyVal.str "ADAL")] } : PCEInstance).declared.length
        = 21 :=
  ⟨(pce_declared_conditions_fixed [] (PyVal.bool false)
      [("cell", PyVal.str "ADAL")] _ (by rfl)).1,
   (pce_declared_conditions_fixed [] (PyVal.bool false)
      [("cell", PyVal.str "ADAL")] _ (by rfl)).2.1⟩

/-- C3 counterexample: the claimed normalization behavior fails on the
code at concrete inputs.  The input " homology " is not trimmed (no
sentinel is stored), "patch clamp" is not treated as a hyphen/space
variant of "patch-clamp", a canonical sentinel given as input is not
passed through (nothing is stored because the lowercased input cannot
equal the mixed-case sentinel), and an unrecognized value "mystery" is
not stored verbatim (nothing is stored). -/
theorem cm_modelType_normalization_cex :
    getAttr (channelModelInit (PyVal.str " homology ") []) "modelType"
        ≠ [PyVal.str ChannelModelType.homologyEstimate] ∧
    getAttr (channelModelInit (PyVal.str "patch clamp") []) "modelType"
        ≠ [PyVal.str ChannelModelType.patchClamp] ∧
    getAttr (channelModelInit (PyVal.str ChannelModelType.patchClamp) []) "modelType"
        ≠ [PyVal.str ChannelModelType.patchClamp] ∧
    getAttr (channelModelInit (PyVal.str "mystery") []) "modelType"
        ≠ [PyVal.str "mystery"] := by
  refine ⟨?_, ?_, ?_, ?_⟩ <;> decide

/-- C3 amended: the modelType normalization lower-cases the input without
trimming; when the lowercased input is exactly "homology" the canonical
homology sentinel is stored, when it is exactly "patch-clamp" the
canonical patch-clamp sentinel is stored, and in every other case
(canonical sentinels included, since the tuple comparisons against them
are dead code after lower-casing) nothing is stored: the modelType
attribute stays unpopulated and no error is raised. -/
theorem cm_modelType_normalization_amended (s : String)
    (kwargs : List (String × PyVal)) :
    getAttr (channelModelInit (PyVal.str s) kwargs) "modelType" =
      if pyLower s = "homology" then [PyVal.str ChannelModelType.homologyEstimate]
      else if pyLower s = "patch-clamp" then [PyVal.str ChannelModelType.patchClamp]
      else [] :=
  getAttr_modelType_value s kwargs

/-- C4 counterexample: the round-trip claim fails on the code.
Normalizing the canonical homology sentinel does not return the sentinel
(the attribute stays unpopulated) and normalizing "unknown-value" does
not pass the string through (it is discarded, not stored). -/
theorem cm_vocab_roundtrip_cex :
    getAttr (channelModelInit (PyVal.str ChannelModelType.homologyEstimate) []) "modelType"
        ≠ [PyVal.str ChannelModelType.homologyEstimate] ∧
    getAttr (channelModelInit (PyVal.str "unknown-value") []) "modelType"
        ≠ [PyVal.str "unknown-value"] := by
  constructor <;> decide

/-- C4 amended: normalizing "homology" and "Homology" both store the
canonical homology sentinel, but normalizing the canonical sentinel
itself stores nothing (not a fixed point: the modelType attribute stays
unpopulated) and normalizing the unrecognized string "unknown-value"
also stores nothing (discarded, not passed through). -/
theorem cm_vocab_roundtrip_amended :
    getAttr (channelModelInit (PyVal.str "homology") []) "modelType"
        = [PyVal.str ChannelModelType.homologyEstimate] ∧
    getAttr (channelModelInit (PyVal.str "Homology") []) "modelType"
        = [PyVal.str ChannelModelType.homologyEstimate] ∧
    getAttr (channelModelInit (PyVal.str ChannelModelType.homologyEstimate) []) "modelType"
        = [] ∧
    getAttr (channelModelInit (PyVal.str "unknown-value") []) "modelType"
        = [] := by
  refine ⟨?_, ?_, ?_, ?_⟩ <;> decide

/-- C5: every successful PatchClampChannelModel construction has its
modelType discriminant equal to the fixed canonical patch-clamp sentinel,
and a caller-supplied modelType keyword is never accepted: the
construction fails with the duplicate-keyword TypeError, whatever value
the caller supplied, so the fixed value always wins. -/
theorem pccm_discriminant_fixed :
    (∀ (kwargs : List (String × PyVal)) (inst : CMInstance),
        patchClampChannelModelInit kwargs = Except.ok inst →
        getAttr inst "modelType" = [PyVal.str ChannelModelType.patchClamp]) ∧
    (∀ (kwargs : List (String × PyVal)) (v : PyVal), ("modelType", v) ∈ kwargs →
        patchClampChannelModelInit kwargs
          = Except.error (InitError.typeErrorDuplicateKeyword "modelType")) := by
  constructor
  · intro kwargs inst h
    rw [pccm_init_ok_iff] at h
    obtain ⟨-, rfl⟩ := h
    exact (getAttr_modelType_value "patch-clamp" kwargs).trans (by rfl)
  · intro kwargs v hv
    have hany : kwargs.any (fun kv => kv.1 == "modelType") = true := by
      rw [List.any_eq_true]
      exact ⟨("modelType", v), hv, by simp⟩
    unfold patchClampChannelModelInit
    dsimp only
    rw [if_pos hany]

/-- C5 witness: a kwarg-free construction carries the canonical
patch-clamp sentinel, and supplying modelType concretely fails. -/
theorem pccm_discriminant_fixed_witness :
    getAttr { channelModelInit (PyVal.str "patch-clamp") [] with
              rels := [("modeled_from", EntityClass.patchClampExperiment)] } "modelType"
      = [PyVal.str ChannelModelType.patchClamp] ∧
    patchClampChannelModelInit [("modelType", PyVal.str "homology")]
      = Except.error (InitError.typeErrorDuplicateKeyword "modelType") :=
  ⟨pccm_discriminant_fixed.1 [] _ (by rfl),
   pccm_discriminant_fixed.2 [("modelType", PyVal.str "homology")]
     (PyVal.str "homology") (by decide)⟩

/-- C7: each specialization fixes the discriminant to its canonical
sentinel and adds exactly one relationship attribute with the
specialization-specific target type — modeled_from targeting
PatchClampExperiment for the patch-clamp specialization and homolog
targeting Channel for the homology specialization — while adding no
datatype attribute beyond the four declared by the parent ChannelModel
init. -/
theorem specializations_single_relationship :
    (∀ (kwargs : List (String × PyVal)) (inst : CMInstance),
        patchClampChannelModelInit kwargs = Except.ok inst →
        getAttr inst "modelType" = [PyVal.str ChannelModelType.patchClamp] ∧
        inst.rels = [("modeled_from", EntityClass.patchClampExperiment)] ∧
        inst.attrNames = (channelModelInit (PyVal.str "patch-clamp") kwargs).attrNames ∧
        inst.attrNames = ["modelType", "ion", "gating", "conductance"]) ∧
    (∀ (kwargs : List (String × PyVal)) (inst : CMInstance),
        homologyChannelModelInit kwargs = Except.ok inst →
        getAttr inst "modelType" = [PyVal.str ChannelModelType.homologyEstimate] ∧
        inst.rels = [("homolog", EntityClass.channel)] ∧
        inst.attrNames = (channelModelInit (PyVal.str "homology") kwargs).attrNames ∧
        inst.attrNames = ["modelType", "ion", "gating", "conductance"]) := by
  constructor
  · intro kwargs inst h
    rw [pccm_init_ok_iff] at h
    obtain ⟨-, rfl⟩ := h
    refine ⟨(getAttr_modelType_value "patch-clamp" kwargs).trans (by rfl), rfl, rfl, ?_⟩
    exact cm_attrNames (PyVal.str "patch-clamp") kwargs
  · intro kwargs inst h
    rw [hcm_init_ok_iff] at h
    obtain ⟨-, rfl⟩ := h
    refine ⟨(getAttr_modelType_value "homology" kwargs).trans (by rfl), rfl, rfl, ?_⟩
    exact cm_attrNames (PyVal.str "homology") kwargs

/-- C7 witness: concrete kwarg-free constructions of both
specializations, showing the single relationship and the unchanged
datatype attribute set. -/
theorem specializations_single_relationship_witness :
    ({ channelModelInit (PyVal.str "patch-clamp") [] with
       rels := [("modeled_from", EntityClass.patchClampExperiment)] } : CMInstance).rels
      = [("modeled_from", EntityClass.patchClampExperiment)] ∧
    ({ channelModelInit (PyVal.str "homology") [] with
       rels := [("homolog", EntityClass.channel)] } : CMInstance).attrNames
      = ["modelType", "ion", "gating", "conductance"] :=
  ⟨(specializations_single_relationship.1 [] _ (by rfl)).2.1,
   (specializations_single_relationship.2 [] _ (by rfl)).2.2.2⟩

/-- C8: the ion attribute is declared multiple-valued, so setting it
twice on any constructed ChannelModel instance accumulates both values in
order into a sequence of length two instead of overwriting. -/
theorem cm_ion_accumulates (mt : PyVal) (kwargs : List (String × PyVal))
    (v1 v2 : PyVal) :
    getAttr (setAttr (setAttr (channelModelInit mt kwargs) "ion" v1) "ion" v2) "ion"
      = [v1, v2] := by
  cases mt with
  | str s =>
      unfold channelModelInit
      dsimp only
      split_ifs <;> rfl
  | bool b => rfl
  | int n => rfl

/-- C6 counterexample: the claim that a duplicate declaration raises
SchemaConflict at class-definition time fails on this code.  The class
bodies execute no attribute declaration at all (class-definition time
declares nothing), while running the ChannelModel init declarations a
second time against the per-class registry raises SchemaConflict for
modelType during instance construction. -/
theorem schema_conflict_timing_cex :
    channelModelClassBodyDecls = [] ∧
    patchClampExperimentClassBodyDecls = [] ∧
    channelModelInitRegistry []
      = Except.ok ["modelType", "ion", "gating", "conductance"] ∧
    channelModelInitRegistry ["modelType", "ion", "gating", "conductance"]
      = Except.error (InitError.schemaConflict "modelType") :=
  ⟨rfl, rfl, by rfl, by rfl⟩

/-- C6 amended: all attribute declarations of this module execute inside
instance constructors, so under the declare contract a duplicate name
raises SchemaConflict at instance-construction time, while
class-definition time declares nothing and therefore can raise no
SchemaConflict. -/
theorem schema_conflict_at_construction (registry : List String)
    (h : "modelType" ∈ registry) :
    channelModelClassBodyDecls = [] ∧
    channelModelInitRegistry registry
      = Except.error (InitError.schemaConflict "modelType") := by
  refine ⟨rfl, ?_⟩
  have hc : registry.contains "modelType" = true := by simpa using h
  unfold channelModelInitRegistry declareInRegistry
  rw [hc]
  rfl

/-- C6 witness: a registry already holding modelType makes the
construction-time declarations fail with SchemaConflict. -/
theorem schema_conflict_at_construction_witness :
    channelModelClassBodyDecls = [] ∧
    channelModelInitRegistry ["modelType"]
      = Except.error (InitError.schemaConflict "modelType") :=
  schema_conflict_at_construction ["modelType"] (by decide)

/-- C9: construction is deterministic.  Two successful
PatchClampExperiment constructions from identical arguments produce
identical populated attribute sets, declared attribute sets and forwarded
kwargs, and the ChannelModel constructor is a pure function of its
arguments. -/
theorem construction_deterministic (baseAccepts : List String) (reference : PyVal)
    (kwargs kwargs2 : List (String × PyVal)) (mt : PyVal) (i1 i2 : PCEInstance)
    (h1 : patchClampExperimentInit baseAccepts reference kwargs = Except.ok i1)
    (h2 : patchClampExperimentInit baseAccepts reference kwargs = Except.ok i2) :
    i1.populated = i2.populated ∧ i1.declared = i2.declared ∧
      i1.baseKwargs = i2.baseKwargs ∧
      channelModelInit mt kwargs2 = channelModelInit mt kwargs2 := by
  have h := h1.symm.trans h2
  injection h with h
  exact ⟨by rw [h], by rw [h], by rw [h], rfl⟩

/-- C9 witness: two identical concrete constructions agree. -/
theorem construction_deterministic_witness :
    ({ reference := PyVal.bool false, baseKwargs := [],
       declared := PatchClampExperiment.conditions,
       populated := [("cell", PyVal.str "ADAL")] } : PCEInstance).populated
      = ({ reference := PyVal.bool false, baseKwargs := [],
           declared := PatchClampExperiment.conditions,
           populated := [("cell", PyVal.str "ADAL")] } : PCEInstance).populated ∧
    ({ reference := PyVal.bool false, baseKwargs := [],
       declared := PatchClampExperiment.conditions,
       populated := [("cell", PyVal.str "ADAL")] } : PCEInstance).declared
      = ({ reference := PyVal.bool false, baseKwargs := [],
           declared := PatchClampExperiment.conditions,
           populated := [("cell", PyVal.str "ADAL")] } : PCEInstance).declared ∧
    ({ reference := PyVal.bool false, baseKwargs := [],
       declared := PatchClampExperiment.conditions,
       populated := [("cell", PyVal.str "ADAL")] } : PCEInstance).baseKwargs
      = ({ reference := PyVal.bool false, baseKwargs := [],
           declared := PatchClampExperiment.conditions,
           populated := [("cell", PyVal.str "ADAL")] } : PCEInstance).baseKwargs ∧
    channelModelInit (PyVal.bool false) [] = channelModelInit (PyVal.bool false) [] :=
  construction_deterministic [] (PyVal.bool false) [("cell", PyVal.str "ADAL")] []
    (PyVal.bool false) _ _ (by rfl) (by rfl)

/-- C10: constructing a ChannelModel with a non-string modelType (the
default False included) succeeds, declares the modelType attribute, and
leaves it unpopulated: the non-string value is silently discarded and no
error is raised. -/
theorem cm_nonstring_modelType_unpopulated (mt : PyVal)
    (kwargs : List (String × PyVal)) (h : ∀ s, mt ≠ PyVal.str s) :
    "modelType" ∈ (channelModelInit mt kwargs).attrNames ∧
    getAttr (channelModelInit mt kwargs) "modelType" = [] := by
  cases mt with
  | str s => exact absurd rfl (h s)
  | bool b =>
      refine ⟨?_, rfl⟩
      rw [cm_attrNames]
      exact List.mem_cons_self _ _
  | int n =>
      refine ⟨?_, rfl⟩
      rw [cm_attrNames]
      exact List.mem_cons_self _ _

/-- C10 witness: the default argument False (a non-string) declares but
does not populate modelType. -/
theorem cm_nonstring_modelType_unpopulated_witness :
    "modelType" ∈ (channelModelInit (PyVal.bool false) []).attrNames ∧
    getAttr (channelModelInit (PyVal.bool false) []) "modelType" = [] :=
  cm_nonstring_modelType_unpopulated (PyVal.bool false) []
    (fun _ h => PyVal.noConfusion h)

end ChannelWorm
